import Mathlib

/-!
Shallow embedding of `react/features/face-landmarks/functions.ts` from the
jitsi-meet excerpt, together with proofs about the claims of its
specification.

Modelling conventions:
- JavaScript values that may be `undefined`/`null` are `Option`s.
- JavaScript numbers are rationals (`ℚ`); `NaN` is not modelled.
- Truthiness of a number is `x ≠ 0`; truthiness of a string is `s ≠ ""`;
  objects are always truthy.
- A JavaScript exception is a `JsError`; a computation that may throw is an
  `Except JsError` value.  An `async` function that throws surfaces the
  error to its caller as a rejected promise, which we model as an
  `Except.error` result.
- Side effects (worker messages, HTTP requests, bitmap closes, log calls)
  are recorded explicitly in the result structure of each function.
-/

/-- A thrown JavaScript error (only its message is modelled). -/
structure JsError where
  message : String
deriving DecidableEq, Repr

/-! ## Constants (`constants.ts` is not part of the excerpt) -/

/-- Modelled from the spec: `constants.ts` is missing from the excerpt.  The
operation tag for a detection request is given in the spec as the constant
tag "detect-face". -/
def DETECT_FACE : String := "detect-face"

/-- Modelled from the spec: `constants.ts` is missing from the excerpt.  The
peer broadcast tag for a face box is given in the spec as the constant tag
"face-box". -/
def FACE_BOX_EVENT_TYPE : String := "face-box"

/-- Modelled from the spec: `constants.ts` is missing from the excerpt.  The
spec describes `SEND_IMAGE_INTERVAL_MS` as a fixed minimum default for the
detection interval, in milliseconds; 1000 ms is used here, consistent with
the detection-interval example of 1000 ms in the spec.  The results proved
below do not depend on the exact value, only on its being positive. -/
def SEND_IMAGE_INTERVAL_MS : ℚ := 1000

/-! ## Data model -/

/-- Modelled from the spec: `types.ts` is missing from the excerpt.  A
`FaceBox` is a normalized bounding region of a detected face, with
percentage offsets (`left`, `right`, `width`), each possibly absent. -/
structure FaceBox where
  left : Option ℚ
  right : Option ℚ
  width : Option ℚ
deriving DecidableEq, Repr

/-- One entry of the face-expression buffer.  Modelled from the spec: the
buffer accumulates expression events (label plus duration); the webhook
sender carries the entries verbatim, so their exact shape is immaterial. -/
structure FaceExpressionRecord where
  emotion : String
  duration : ℚ
deriving DecidableEq, Repr

/-- The `faceLandmarks` section of `state['features/base/config']`. -/
structure FaceLandmarksConfig where
  captureInterval : Option ℚ
deriving DecidableEq, Repr

/-- The slice `state['features/base/config']` (only the fields read by the
excerpt). -/
structure BaseConfig where
  webhookProxyUrl : Option String
  faceLandmarks : Option FaceLandmarksConfig
deriving DecidableEq, Repr

/-- The local participant record (only the fields read by the excerpt). -/
structure Participant where
  jwtId : Option String
  name : Option String
deriving DecidableEq, Repr

/-- A payload for the dedicated face-landmark reporting primitive
`conference.sendFaceLandmarks`. -/
structure FaceLandmarksPayload where
  faceExpression : String
  duration : ℚ
deriving DecidableEq, Repr

/-- A payload handed to `conference.sendEndpointMessage`.  The source sends
plain objects `\x7btype, ...\x7d`; the `type` tag is recovered by
`EndpointMessage.type`. -/
inductive EndpointMessage where
  | faceLandmark (faceExpression : String) (duration : ℚ)
  | faceBox (box : FaceBox)
deriving DecidableEq, Repr

/-- The `type` tag of an endpoint message, as written in the source:
`face_landmark` literally at line 32, `FACE_BOX_EVENT_TYPE` at line 55. -/
def EndpointMessage.type : EndpointMessage → String
  | .faceLandmark _ _ => "face_landmark"
  | .faceBox _ => FACE_BOX_EVENT_TYPE

/-- The conference handle.  `sessionId` is read by the webhook sender; the
two send primitives are modelled as functions returning either success or a
thrown error, so that the try/catch behaviour of the broadcasters is
observable. -/
structure Conference where
  sessionId : Option String
  sendEndpointMessage : String → EndpointMessage → Except JsError Unit
  sendFaceLandmarks : FaceLandmarksPayload → Except JsError Unit

/-- The signaling connection handle; `getJid` may itself yield undefined. -/
structure Connection where
  getJid : Option String
deriving DecidableEq, Repr

/-- The slice `state['features/face-landmarks']` (only the fields read by
the excerpt).  `faceBoxes` is the participant-id-keyed mapping, modelled as
an association list. -/
structure FaceLandmarksState where
  faceExpressionsBuffer : List FaceExpressionRecord
  faceBoxes : List (String × FaceBox)
deriving DecidableEq, Repr

/-- The redux state `IState`, restricted to the slices the excerpt reads.
`localParticipant` stands for the external collaborator
`getLocalParticipant(state)`, which looks the local participant up in the
participants slice (not part of the excerpt). -/
structure IState where
  baseConfig : BaseConfig
  conference : Option Conference
  jwt : Option String
  connection : Option Connection
  faceLandmarksState : FaceLandmarksState
  localParticipant : Option Participant

/-! ## Derived display helpers (source lines 197 to 243) -/

/-- Source lines 197 to 199: `getFaceBoxForId` returns
`state['features/face-landmarks'].faceBoxes[id]`, which is undefined when
the id has no entry. -/
def getFaceBoxForId (id : String) (state : IState) : Option FaceBox :=
  state.faceLandmarksState.faceBoxes.lookup id

/-- Source lines 208 to 220: `getVideoObjectPosition`.  The source returns
the CSS string of shape `<horizontal>% <vertical>%`; we model the pair of
numeric percentage components, so `(70, 50)` stands for the string
`70% 50%`.  The guard `id &&` makes an undefined or empty id fall through
to the default, and `if (right && width)` treats a missing or zero field as
absent (JavaScript truthiness). -/
def getVideoObjectPosition (state : IState) (id : Option String) : ℚ × ℚ :=
  let faceBox : Option FaceBox :=
    match id with
    | some s => if s = "" then none else getFaceBoxForId s state
    | none => none
  match faceBox with
  | some fb =>
    match fb.right, fb.width with
    | some right, some width =>
      if right ≠ 0 ∧ width ≠ 0 then (right - width / 2, 50) else (50, 50)
    | _, _ => (50, 50)
  | none => (50, 50)

/-- JavaScript `a || b` on a possibly-undefined number: the right operand is
taken when the left is undefined or zero (falsy). -/
def jsNumOr (a : Option ℚ) (b : ℚ) : ℚ :=
  match a with
  | some x => if x = 0 then b else x
  | none => b

/-- JavaScript `Math.max` applied to a single argument, exactly as the
source calls it at line 231: with one argument it returns that argument
unchanged. -/
def mathMaxOne (x : ℚ) : ℚ := x

/-- Source lines 228 to 232: `getDetectionInterval` returns
`Math.max(faceLandmarks?.captureInterval || SEND_IMAGE_INTERVAL_MS)`.
Note that `Math.max` receives a single argument. -/
def getDetectionInterval (state : IState) : ℚ :=
  mathMaxOne
    (jsNumOr (state.baseConfig.faceLandmarks.bind FaceLandmarksConfig.captureInterval)
      SEND_IMAGE_INTERVAL_MS)

/-- Source lines 241 to 243: `getFaceExpressionDuration`. -/
def getFaceExpressionDuration (state : IState) (faceExpressionCount : ℕ) : ℚ :=
  faceExpressionCount * (getDetectionInterval state / 1000)

/-! ## Result Broadcaster (source lines 25 to 84) -/

/-- Observable outcome of one broadcaster call: whether the function itself
completed normally or let an exception escape, and how many warnings it
logged. -/
structure BroadcastRun where
  outcome : Except JsError Unit
  warnings : ℕ
deriving Repr

/-- Source lines 25 to 40: `sendFaceExpressionToParticipants` wraps
`conference.sendEndpointMessage('', \x7btype: 'face_landmark', ...\x7d)` in
try/catch; a thrown error is logged as a warning and swallowed. -/
def sendFaceExpressionToParticipants (conference : Conference)
    (faceExpression : String) (duration : ℚ) : BroadcastRun :=
  match conference.sendEndpointMessage ""
      (EndpointMessage.faceLandmark faceExpression duration) with
  | .ok _ => ⟨.ok (), 0⟩
  | .error _ => ⟨.ok (), 1⟩

/-- Source lines 49 to 61: `sendFaceBoxToParticipants`, same try/catch
shape around `sendEndpointMessage` with a `FACE_BOX_EVENT_TYPE` payload. -/
def sendFaceBoxToParticipants (conference : Conference)
    (faceBox : FaceBox) : BroadcastRun :=
  match conference.sendEndpointMessage "" (EndpointMessage.faceBox faceBox) with
  | .ok _ => ⟨.ok (), 0⟩
  | .error _ => ⟨.ok (), 1⟩

/-- Source lines 71 to 84: `sendFaceExpressionToServer` wraps
`conference.sendFaceLandmarks(\x7bfaceExpression, duration\x7d)` in
try/catch; a thrown error is logged as a warning and swallowed. -/
def sendFaceExpressionToServer (conference : Conference)
    (faceExpression : String) (duration : ℚ) : BroadcastRun :=
  match conference.sendFaceLandmarks ⟨faceExpression, duration⟩ with
  | .ok _ => ⟨.ok (), 0⟩
  | .error _ => ⟨.ok (), 1⟩

/-! ## Webhook submission (source lines 92 to 138) -/

/-- A fetch response; `ok` mirrors the fetch API, true exactly for a
success status (200 to 299). -/
structure HttpResponse where
  status : ℕ
deriving DecidableEq, Repr

/-- The `res.ok` accessor of the fetch API. -/
def HttpResponse.isOk (r : HttpResponse) : Bool :=
  200 ≤ r.status && r.status ≤ 299

/-- The request body built at source lines 110 to 118. -/
structure WebhookBody where
  meetingFqn : Option String
  sessionId : Option String
  submitted : ℕ
  emotions : List FaceExpressionRecord
  participantId : Option String
  participantName : Option String
  participantJid : Option String
deriving DecidableEq, Repr

/-- One HTTP request as handed to `fetch` at source lines 122 to 126. -/
structure HttpRequest where
  url : String
  method : String
  headers : List (String × String)
  body : WebhookBody
deriving DecidableEq, Repr

/-- Observable outcome of one `sendFaceExpressionsWebhook` call: the
boolean result, every request issued, and the number of errors logged. -/
structure WebhookRun where
  result : Bool
  requests : List HttpRequest
  errorLogs : ℕ
deriving DecidableEq, Repr

/-- Source lines 105 to 108: the headers object.  `Content-Type` is always
present; the `Authorization` entry is spread in only when `jwt` is truthy
(defined and non-empty). -/
def webhookHeaders (jwt : Option String) : List (String × String) :=
  (match jwt with
    | some t => if t = "" then [] else [("Authorization", "Bearer " ++ t)]
    | none => []) ++ [("Content-Type", "application/json")]

/-- Source lines 92 to 138: `sendFaceExpressionsWebhook`.  External inputs
are passed explicitly: `meetingFqn` is the value of the collaborator
`extractFqnFromPath()`, `now` is `Date.now()` at the call, and `fetch`
gives the outcome of the single possible HTTP POST (a response, or a thrown
transport error).  An empty buffer returns false before anything else; with
a falsy url the body is still built but no request is issued. -/
def sendFaceExpressionsWebhook (state : IState) (meetingFqn : Option String)
    (now : ℕ) (fetch : HttpRequest → Except JsError HttpResponse) : WebhookRun :=
  let url := state.baseConfig.webhookProxyUrl
  let jid := state.connection.bind Connection.getJid
  let faceExpressionsBuffer := state.faceLandmarksState.faceExpressionsBuffer
  if faceExpressionsBuffer.length = 0 then
    ⟨false, [], 0⟩
  else
    let headers := webhookHeaders state.jwt
    let reqBody : WebhookBody :=
      ⟨meetingFqn, state.conference.bind Conference.sessionId, now,
        faceExpressionsBuffer, state.localParticipant.bind Participant.jwtId,
        state.localParticipant.bind Participant.name, jid⟩
    match url with
    | some u =>
      if u = "" then ⟨false, [], 0⟩
      else
        let req : HttpRequest := ⟨u ++ "/emotions", "POST", headers, reqBody⟩
        match fetch req with
        | .ok res => if res.isOk then ⟨true, [req], 0⟩ else ⟨false, [req], 1⟩
        | .error _ => ⟨false, [req], 1⟩
    | none => ⟨false, [], 0⟩

/-! ## Worker Dispatcher (source lines 149 to 188) -/

/-- A grabbed frame; only its dimensions are modelled. -/
structure Bitmap where
  width : ℕ
  height : ℕ
deriving DecidableEq, Repr

/-- The `image` field of a detection message: either the bitmap itself
(direct path) or the raw pixel data extracted from the raster surface
(fallback path, carrying the surface dimensions). -/
inductive ImageVal where
  | bitmap (b : Bitmap)
  | imageData (width height : ℕ)
deriving DecidableEq, Repr

/-- The message posted to the worker at source lines 179 to 183.  `image`
is an `Option` because `context?.getImageData(...)` is undefined when the
module-level context is null. -/
structure WorkerMsg where
  type : String
  image : Option ImageVal
  threshold : ℚ
deriving DecidableEq, Repr

/-- The worker handle: `postMessage` either enqueues the message or throws
(for example a structured-clone failure). -/
structure Worker where
  postMessage : WorkerMsg → Except JsError Unit

/-- The image-capture handle: `grabFrame` is awaited and either yields a
bitmap or throws. -/
structure ImageCapture where
  grabFrame : Except JsError Bitmap

/-- The module-level environment of source lines 9 to 15: whether
`OffscreenCanvas` is defined, and, when it is not, whether
`canvas.getContext('2d')` produced a context (it may return null).  The
raster surface itself is a process-wide singleton whose pixel content is
not modelled; `getImageData` is derived from the bitmap dimensions. -/
structure RasterEnv where
  offscreenCanvasDefined : Bool
  contextAvailable : Bool
deriving DecidableEq, Repr

/-- Observable outcome of one `sendDataToWorker` call: the function result
(or the escaped exception), the messages enqueued to the worker, how many
times `imageBitmap.close()` ran, and how many warnings were logged. -/
structure DispatchRun where
  result : Except JsError Bool
  posted : List WorkerMsg
  closedCount : ℕ
  warnings : ℕ
deriving Repr

/-- Source lines 169 to 177: the `image` value sent to the worker.  When
`OffscreenCanvas` is undefined the bitmap is drawn on the module-level
raster surface and `context?.getImageData(...)` is extracted, which is
undefined when the context is null; otherwise the bitmap is passed
directly. -/
def dispatchImage (env : RasterEnv) (imageBitmap : Bitmap) : Option ImageVal :=
  if env.offscreenCanvasDefined = false then
    if env.contextAvailable then
      some (.imageData imageBitmap.width imageBitmap.height)
    else none
  else some (.bitmap imageBitmap)

/-- Source lines 149 to 188: `sendDataToWorker`.  The source gives
`threshold` the default value 10; the default is not modelled, callers pass
it explicitly.  A null or undefined capture handle returns false; a
`grabFrame` throw is caught, logged and turned into false; `postMessage` is
not inside any try/catch, so a throw there escapes (the promise rejects)
and skips the `imageBitmap.close()` that follows it. -/
def sendDataToWorker (env : RasterEnv) (worker : Worker)
    (imageCapture : Option ImageCapture) (threshold : ℚ) : DispatchRun :=
  match imageCapture with
  | none => ⟨.ok false, [], 0, 0⟩
  | some cap =>
    match cap.grabFrame with
    | .error _ => ⟨.ok false, [], 0, 1⟩
    | .ok imageBitmap =>
      let msg : WorkerMsg := ⟨DETECT_FACE, dispatchImage env imageBitmap, threshold⟩
      match worker.postMessage msg with
      | .error e => ⟨.error e, [], 0, 0⟩
      | .ok _ => ⟨.ok true, [msg], 1, 0⟩

/-! ## Concrete fixtures used by witnesses and counterexamples -/

/-- An empty face-landmarks slice. -/
def emptyFaceLandmarksState : FaceLandmarksState := ⟨[], []⟩

/-- A state whose configured `captureInterval` is 500 ms, below the
default. -/
def stateCapture500 : IState :=
  ⟨⟨none, some ⟨some 500⟩⟩, none, none, none, emptyFaceLandmarksState, none⟩

/-- A state with no `faceLandmarks` config section at all. -/
def stateNoCapture : IState :=
  ⟨⟨none, none⟩, none, none, none, emptyFaceLandmarksState, none⟩

/-- A state holding two face boxes: a normal one for `p1` and one with a
zero `right` offset for `p2`. -/
def boxState : IState :=
  ⟨⟨none, none⟩, none, none, none,
    ⟨[], [("p1", ⟨none, some 80, some 20⟩), ("p2", ⟨none, some 0, some 20⟩)]⟩,
    none⟩

/-! ## Claim theorems -/

/-- C1: the spec claims `getDetectionInterval` returns the larger of the
configured `captureInterval` and `SEND_IMAGE_INTERVAL_MS`, so that the
result is always at least `SEND_IMAGE_INTERVAL_MS`.  Evaluating the code at
a state whose configured interval is 500 ms refutes this: `Math.max` is
applied to a single argument, so it is the identity, and
`captureInterval || SEND_IMAGE_INTERVAL_MS` is a fallback rather than a
maximum; the function returns 500, strictly below the default. -/
theorem getDetectionInterval_below_default :
    getDetectionInterval stateCapture500 = 500 ∧
    getDetectionInterval stateCapture500 < SEND_IMAGE_INTERVAL_MS := by
  constructor
  · rfl
  · show (500 : ℚ) < 1000
    norm_num

/-- C9: `getFaceExpressionDuration` multiplies the consecutive-detection
count by the detection interval in milliseconds divided by 1000, yielding
seconds; in particular a 1000 ms interval and count 3 give 3 seconds. -/
theorem getFaceExpressionDuration_spec :
    (∀ (s : IState) (c : ℕ),
      getFaceExpressionDuration s c = c * (getDetectionInterval s / 1000)) ∧
    (∀ s : IState, getDetectionInterval s = 1000 →
      getFaceExpressionDuration s 3 = 3) := by
  constructor
  · intro s c
    rfl
  · intro s h
    rw [getFaceExpressionDuration, h]
    norm_num

/-- Witness for C9: with no configured interval the detection interval is
the 1000 ms default and three consecutive detections last 3 seconds. -/
theorem getFaceExpressionDuration_spec_witness :
    getDetectionInterval stateNoCapture = 1000 ∧
    getFaceExpressionDuration stateNoCapture 3 = 3 :=
  ⟨rfl, getFaceExpressionDuration_spec.2 stateNoCapture rfl⟩

/-- C4: `getVideoObjectPosition` (whose value `(h, v)` models the CSS
string of shape `h% v%`) returns `70% 50%` for a stored box with right 80
and width 20, returns the default `50% 50%` when the box is absent or when
`right` or `width` is missing or exactly zero (the truthiness edge case),
and in general returns `(right - width/2)% 50%` when both fields are
truthy. -/
theorem getVideoObjectPosition_spec :
    (∀ (s : IState) (id : String) (box : FaceBox) (r w : ℚ), id ≠ "" →
      getFaceBoxForId id s = some box → box.right = some r →
      box.width = some w → r ≠ 0 → w ≠ 0 →
      getVideoObjectPosition s (some id) = (r - w / 2, 50)) ∧
    (∀ (s : IState) (id : String) (box : FaceBox),
      getFaceBoxForId id s = some box →
      (box.right = none ∨ box.width = none ∨
        box.right = some 0 ∨ box.width = some 0) →
      getVideoObjectPosition s (some id) = (50, 50)) ∧
    (∀ (s : IState) (id : String), getFaceBoxForId id s = none →
      getVideoObjectPosition s (some id) = (50, 50)) ∧
    (∀ s : IState, getVideoObjectPosition s none = (50, 50)) ∧
    (∀ (s : IState) (id : String) (box : FaceBox), id ≠ "" →
      getFaceBoxForId id s = some box → box.right = some 80 →
      box.width = some 20 → getVideoObjectPosition s (some id) = (70, 50)) := by
  refine ⟨?_, ?_, ?_, ?_, ?_⟩
  · intro s id box r w hid hbox hr hw hr0 hw0
    simp [getVideoObjectPosition, hid, hbox, hr, hw, hr0, hw0]
  · intro s id box hbox hdeg
    by_cases hid : id = ""
    · simp [getVideoObjectPosition, hid]
    · rcases hdeg with h | h | h | h <;>
        simp [getVideoObjectPosition, hid, hbox, h] <;>
        cases hr : box.right <;> cases hw : box.width <;>
        simp_all [getVideoObjectPosition]
  · intro s id hbox
    by_cases hid : id = "" <;> simp [getVideoObjectPosition, hid, hbox]
  · intro s
    simp [getVideoObjectPosition]
  · intro s id box hid hbox hr hw
    simp [getVideoObjectPosition, hid, hbox, hr, hw]
    norm_num

/-- Witness for C4: in `boxState`, participant `p1` with box right 80 and
width 20 yields `70% 50%`, participant `p2` with a zero right offset falls
back to the default, and an undefined id falls back to the default. -/
theorem getVideoObjectPosition_spec_witness :
    getVideoObjectPosition boxState (some "p1") = (70, 50) ∧
    getVideoObjectPosition boxState (some "p2") = (50, 50) ∧
    getVideoObjectPosition boxState none = (50, 50) :=
  ⟨getVideoObjectPosition_spec.2.2.2.2 boxState "p1" ⟨none, some 80, some 20⟩
      (by decide) (by decide) rfl rfl,
    getVideoObjectPosition_spec.2.1 boxState "p2" ⟨none, some 0, some 20⟩
      (by decide) (Or.inr (Or.inr (Or.inl rfl))),
    getVideoObjectPosition_spec.2.2.2.1 boxState⟩

/-- Builder for webhook-oriented states: a url, a jwt and a buffer, with
every other slice absent. -/
def mkWebhookState (url jwt : Option String)
    (buffer : List FaceExpressionRecord) : IState :=
  ⟨⟨url, none⟩, none, jwt, none, ⟨buffer, []⟩, none⟩

/-- A one-entry expression buffer. -/
def sampleBuffer : List FaceExpressionRecord := [⟨"happy", 2⟩]

/-- A fetch environment that always answers 200. -/
def okFetch : HttpRequest → Except JsError HttpResponse := fun _ => .ok ⟨200⟩

/-- C5: the headers built by `sendFaceExpressionsWebhook` always contain
`Content-Type: application/json`; with a truthy jwt the `Authorization`
header is exactly `Bearer <token>`, and with an absent jwt no
`Authorization` entry exists at all; moreover every request the function
issues carries exactly these headers. -/
theorem webhookHeaders_spec (jwt : Option String) :
    ("Content-Type", "application/json") ∈ webhookHeaders jwt ∧
    (∀ t, jwt = some t → t ≠ "" →
      webhookHeaders jwt =
        [("Authorization", "Bearer " ++ t), ("Content-Type", "application/json")]) ∧
    (jwt = none ∨ jwt = some "" →
      webhookHeaders jwt = [("Content-Type", "application/json")]) ∧
    (∀ (s : IState) (meetingFqn : Option String) (now : ℕ)
      (fetch : HttpRequest → Except JsError HttpResponse) (req : HttpRequest),
      req ∈ (sendFaceExpressionsWebhook s meetingFqn now fetch).requests →
      req.headers = webhookHeaders s.jwt) := by
  refine ⟨?_, ?_, ?_, ?_⟩
  · rcases jwt with _ | t
    · simp [webhookHeaders]
    · by_cases ht : t = "" <;> simp [webhookHeaders, ht]
  · intro t h ht
    subst h
    simp [webhookHeaders, ht]
  · rintro (h | h) <;> subst h <;> simp [webhookHeaders]
  · intro s meetingFqn now fetch req hreq
    simp only [sendFaceExpressionsWebhook] at hreq
    split at hreq
    · simp at hreq
    · split at hreq
      · split at hreq
        · simp at hreq
        · split at hreq
          · split at hreq <;> simp at hreq <;> rw [hreq]
          · simp at hreq
            rw [hreq]
      · simp at hreq

/-- Witness for C5: concrete header lists for a present and for an absent
token, and the headers of a concretely issued request. -/
theorem webhookHeaders_spec_witness :
    webhookHeaders (some "tok123") =
      [("Authorization", "Bearer tok123"), ("Content-Type", "application/json")] ∧
    webhookHeaders none = [("Content-Type", "application/json")] ∧
    (⟨"https://h/emotions", "POST", webhookHeaders (some "tok123"),
        ⟨none, none, 7, sampleBuffer, none, none, none⟩⟩ : HttpRequest).headers =
      webhookHeaders (mkWebhookState (some "https://h") (some "tok123") sampleBuffer).jwt := by
  refine ⟨(webhookHeaders_spec (some "tok123")).2.1 "tok123" rfl (by decide),
    (webhookHeaders_spec none).2.2.1 (Or.inl rfl),
    (webhookHeaders_spec (some "tok123")).2.2.2
      (mkWebhookState (some "https://h") (some "tok123") sampleBuffer)
      none 7 okFetch _ ?_⟩
  simp [sendFaceExpressionsWebhook, mkWebhookState, sampleBuffer, okFetch,
    HttpResponse.isOk]

/-- C6: `sendFaceExpressionsWebhook` returns false and issues no request
when the expression buffer is empty (returning before anything else) and
when no webhook url is configured (absent or empty-string url). -/
theorem sendFaceExpressionsWebhook_preconditions (s : IState)
    (meetingFqn : Option String) (now : ℕ)
    (fetch : HttpRequest → Except JsError HttpResponse) :
    (s.faceLandmarksState.faceExpressionsBuffer = [] →
      sendFaceExpressionsWebhook s meetingFqn now fetch = ⟨false, [], 0⟩) ∧
    ((s.baseConfig.webhookProxyUrl = none ∨ s.baseConfig.webhookProxyUrl = some "") →
      (sendFaceExpressionsWebhook s meetingFqn now fetch).result = false ∧
      (sendFaceExpressionsWebhook s meetingFqn now fetch).requests = []) := by
  constructor
  · intro h
    simp [sendFaceExpressionsWebhook, h]
  · intro h
    by_cases hb : s.faceLandmarksState.faceExpressionsBuffer.length = 0
    · simp [sendFaceExpressionsWebhook, hb]
    · rcases h with h | h <;> simp [sendFaceExpressionsWebhook, hb, h]

/-- Witness for C6: a state with an empty buffer and a configured url, and
a state with a non-empty buffer but no url, both yield false with no
request. -/
theorem sendFaceExpressionsWebhook_preconditions_witness :
    sendFaceExpressionsWebhook
      (mkWebhookState (some "https://h") none []) none 7 okFetch = ⟨false, [], 0⟩ ∧
    (sendFaceExpressionsWebhook
      (mkWebhookState none none sampleBuffer) none 7 okFetch).result = false ∧
    (sendFaceExpressionsWebhook
      (mkWebhookState none none sampleBuffer) none 7 okFetch).requests = [] := by
  refine ⟨(sendFaceExpressionsWebhook_preconditions
      (mkWebhookState (some "https://h") none []) none 7 okFetch).1 rfl, ?_⟩
  exact (sendFaceExpressionsWebhook_preconditions
    (mkWebhookState none none sampleBuffer) none 7 okFetch).2 (Or.inl rfl)

/-- C7: with a non-empty buffer and a truthy url,
`sendFaceExpressionsWebhook` issues exactly one POST to `<url>/emotions`
whose body carries the whole buffer verbatim and the current clock reading
as `submitted`; it returns true exactly when the response has a success
status, and on a non-success status or a thrown transport error it logs
once and returns false, with no second request. -/
theorem sendFaceExpressionsWebhook_post_spec (s : IState)
    (meetingFqn : Option String) (now : ℕ)
    (fetch : HttpRequest → Except JsError HttpResponse) (u : String)
    (hbuf : s.faceLandmarksState.faceExpressionsBuffer ≠ [])
    (hurl : s.baseConfig.webhookProxyUrl = some u) (hu : u ≠ "") :
    ∃ req,
      (sendFaceExpressionsWebhook s meetingFqn now fetch).requests = [req] ∧
      req.url = u ++ "/emotions" ∧
      req.method = "POST" ∧
      req.headers = webhookHeaders s.jwt ∧
      req.body.emotions = s.faceLandmarksState.faceExpressionsBuffer ∧
      req.body.submitted = now ∧
      ((sendFaceExpressionsWebhook s meetingFqn now fetch).result = true ↔
        ∃ r, fetch req = .ok r ∧ r.isOk = true) ∧
      (∀ r, fetch req = .ok r → r.isOk = false →
        sendFaceExpressionsWebhook s meetingFqn now fetch = ⟨false, [req], 1⟩) ∧
      (∀ e, fetch req = .error e →
        sendFaceExpressionsWebhook s meetingFqn now fetch = ⟨false, [req], 1⟩) := by
  have hb : ¬ s.faceLandmarksState.faceExpressionsBuffer.length = 0 := by
    simpa using hbuf
  refine ⟨⟨u ++ "/emotions", "POST", webhookHeaders s.jwt,
    ⟨meetingFqn, s.conference.bind Conference.sessionId, now,
      s.faceLandmarksState.faceExpressionsBuffer,
      s.localParticipant.bind Participant.jwtId,
      s.localParticipant.bind Participant.name,
      s.connection.bind Connection.getJid⟩⟩, ?_, rfl, rfl, rfl, rfl, rfl, ?_, ?_, ?_⟩
  · cases hf : fetch ⟨u ++ "/emotions", "POST", webhookHeaders s.jwt,
        ⟨meetingFqn, s.conference.bind Conference.sessionId, now,
          s.faceLandmarksState.faceExpressionsBuffer,
          s.localParticipant.bind Participant.jwtId,
          s.localParticipant.bind Participant.name,
          s.connection.bind Connection.getJid⟩⟩ with
    | ok r =>
      by_cases hok : r.isOk <;> simp [sendFaceExpressionsWebhook, hb, hurl, hu, hf, hok]
    | error e =>
      simp [sendFaceExpressionsWebhook, hb, hurl, hu, hf]
  · cases hf : fetch ⟨u ++ "/emotions", "POST", webhookHeaders s.jwt,
        ⟨meetingFqn, s.conference.bind Conference.sessionId, now,
          s.faceLandmarksState.faceExpressionsBuffer,
          s.localParticipant.bind Participant.jwtId,
          s.localParticipant.bind Participant.name,
          s.connection.bind Connection.getJid⟩⟩ with
    | ok r =>
      by_cases hok : r.isOk <;>
        simp [sendFaceExpressionsWebhook, hb, hurl, hu, hf, hok]
    | error e =>
      simp [sendFaceExpressionsWebhook, hb, hurl, hu, hf]
  · intro r hf hok
    simp [sendFaceExpressionsWebhook, hb, hurl, hu, hf, hok]
  · intro e hf
    simp [sendFaceExpressionsWebhook, hb, hurl, hu, hf]

/-- A conference handle whose both send primitives throw. -/
def failingConference : Conference :=
  ⟨none, fun _ _ => .error ⟨"network down"⟩, fun _ => .error ⟨"network down"⟩⟩

/-- A sample face box. -/
def sampleBox : FaceBox := ⟨some 10, some 80, some 20⟩

/-- C8: when the underlying send primitive throws, each of
`sendFaceExpressionToParticipants`, `sendFaceBoxToParticipants` and
`sendFaceExpressionToServer` catches the error, logs one warning and
returns normally; in every case the broadcaster itself completes without
letting an exception escape. -/
theorem faceLandmarksBroadcast_swallows (conference : Conference)
    (faceExpression : String) (duration : ℚ) (faceBox : FaceBox) :
    ((sendFaceExpressionToParticipants conference faceExpression duration).outcome
        = .ok () ∧
      (sendFaceBoxToParticipants conference faceBox).outcome = .ok () ∧
      (sendFaceExpressionToServer conference faceExpression duration).outcome
        = .ok ()) ∧
    (∀ e, conference.sendEndpointMessage ""
        (EndpointMessage.faceLandmark faceExpression duration) = .error e →
      sendFaceExpressionToParticipants conference faceExpression duration
        = ⟨.ok (), 1⟩) ∧
    (∀ e, conference.sendEndpointMessage ""
        (EndpointMessage.faceBox faceBox) = .error e →
      sendFaceBoxToParticipants conference faceBox = ⟨.ok (), 1⟩) ∧
    (∀ e, conference.sendFaceLandmarks ⟨faceExpression, duration⟩ = .error e →
      sendFaceExpressionToServer conference faceExpression duration
        = ⟨.ok (), 1⟩) := by
  refine ⟨⟨?_, ?_, ?_⟩, ?_, ?_, ?_⟩
  · cases h : conference.sendEndpointMessage ""
        (EndpointMessage.faceLandmark faceExpression duration) <;>
      simp [sendFaceExpressionToParticipants, h]
  · cases h : conference.sendEndpointMessage "" (EndpointMessage.faceBox faceBox) <;>
      simp [sendFaceBoxToParticipants, h]
  · cases h : conference.sendFaceLandmarks ⟨faceExpression, duration⟩ <;>
      simp [sendFaceExpressionToServer, h]
  · intro e h
    simp [sendFaceExpressionToParticipants, h]
  · intro e h
    simp [sendFaceBoxToParticipants, h]
  · intro e h
    simp [sendFaceExpressionToServer, h]

/-- Witness for C8: on a conference whose send primitives throw, each
broadcaster returns normally with exactly one warning logged. -/
theorem faceLandmarksBroadcast_swallows_witness :
    sendFaceExpressionToParticipants failingConference "happy" 2 = ⟨.ok (), 1⟩ ∧
    sendFaceBoxToParticipants failingConference sampleBox = ⟨.ok (), 1⟩ ∧
    sendFaceExpressionToServer failingConference "happy" 2 = ⟨.ok (), 1⟩ :=
  ⟨(faceLandmarksBroadcast_swallows failingConference "happy" 2 sampleBox).2.1
      ⟨"network down"⟩ rfl,
    (faceLandmarksBroadcast_swallows failingConference "happy" 2 sampleBox).2.2.1
      ⟨"network down"⟩ rfl,
    (faceLandmarksBroadcast_swallows failingConference "happy" 2 sampleBox).2.2.2
      ⟨"network down"⟩ rfl⟩

/-! ## Dispatcher fixtures -/

/-- A worker whose `postMessage` always throws a structured-clone error. -/
def throwingWorker : Worker := ⟨fun _ => .error ⟨"DataCloneError"⟩⟩

/-- A worker whose `postMessage` always succeeds. -/
def okWorker : Worker := ⟨fun _ => .ok ()⟩

/-- A capture handle yielding a 2 by 2 bitmap. -/
def capture2x2 : ImageCapture := ⟨.ok ⟨2, 2⟩⟩

/-- A capture handle yielding a 4 by 4 bitmap. -/
def capture4x4 : ImageCapture := ⟨.ok ⟨4, 4⟩⟩

/-- A capture handle whose `grabFrame` throws. -/
def failingCapture : ImageCapture := ⟨.error ⟨"track ended"⟩⟩

/-- Environment with `OffscreenCanvas` defined (direct-bitmap path). -/
def offscreenEnv : RasterEnv := ⟨true, false⟩

/-- Fallback environment: no `OffscreenCanvas`, 2D context available. -/
def fallbackEnv : RasterEnv := ⟨false, true⟩

/-- Fallback environment in which the 2D context is null. -/
def noContextEnv : RasterEnv := ⟨false, false⟩

/-- C2 counterexample: with a successfully grabbed frame and a worker whose
`postMessage` throws, `sendDataToWorker` does not return normally: the
thrown error escapes as the result (the promise rejects), because the
`postMessage` call sits outside every try/catch in the source. -/
theorem sendDataToWorker_postMessage_error_escapes :
    (sendDataToWorker offscreenEnv throwingWorker (some capture2x2) 10).result =
      Except.error ⟨"DataCloneError"⟩ := rfl

/-- C2 (amended): `grabFrame` failures are caught, logged and turned into a
normal false return, but a `postMessage` failure is not caught and
propagates out of `sendDataToWorker`. -/
theorem sendDataToWorker_error_boundaries (env : RasterEnv) (worker : Worker)
    (cap : ImageCapture) (threshold : ℚ) :
    (∀ e, cap.grabFrame = .error e →
      sendDataToWorker env worker (some cap) threshold = ⟨.ok false, [], 0, 1⟩) ∧
    (∀ b e, cap.grabFrame = .ok b →
      worker.postMessage ⟨DETECT_FACE, dispatchImage env b, threshold⟩ = .error e →
      (sendDataToWorker env worker (some cap) threshold).result = .error e) := by
  constructor
  · intro e h
    simp [sendDataToWorker, h]
  · intro b e hb hp
    simp [sendDataToWorker, hb, hp]

/-- Witness for C2 (amended): a throwing capture yields a caught failure
and a logged warning, while a throwing `postMessage` after a successful
grab rejects with that very error. -/
theorem sendDataToWorker_error_boundaries_witness :
    sendDataToWorker offscreenEnv okWorker (some failingCapture) 10 =
      ⟨.ok false, [], 0, 1⟩ ∧
    (sendDataToWorker fallbackEnv throwingWorker (some capture4x4) 10).result =
      Except.error ⟨"DataCloneError"⟩ :=
  ⟨(sendDataToWorker_error_boundaries offscreenEnv okWorker failingCapture 10).1
      ⟨"track ended"⟩ rfl,
    (sendDataToWorker_error_boundaries fallbackEnv throwingWorker capture4x4 10).2
      ⟨4, 4⟩ ⟨"DataCloneError"⟩ rfl rfl⟩

/-- C3 counterexample: with a successfully grabbed frame and a worker whose
`postMessage` throws, the bitmap is never closed: `imageBitmap.close()`
stands after the `postMessage` call and is skipped when it throws, so the
close count is 0, not 1. -/
theorem sendDataToWorker_close_skipped_on_postMessage_error :
    (sendDataToWorker offscreenEnv throwingWorker (some capture4x4) 10).closedCount
      = 0 := rfl

/-- C3 (amended): when `grabFrame` succeeds, the bitmap is closed exactly
once whenever the worker hand-off returns normally, on the direct path and
on the fallback path alike; when `postMessage` throws, the close is
skipped. -/
theorem sendDataToWorker_close_spec (env : RasterEnv) (worker : Worker)
    (cap : ImageCapture) (threshold : ℚ) :
    (∀ b, cap.grabFrame = .ok b →
      worker.postMessage ⟨DETECT_FACE, dispatchImage env b, threshold⟩ = .ok () →
      (sendDataToWorker env worker (some cap) threshold).closedCount = 1) ∧
    (∀ b e, cap.grabFrame = .ok b →
      worker.postMessage ⟨DETECT_FACE, dispatchImage env b, threshold⟩ = .error e →
      (sendDataToWorker env worker (some cap) threshold).closedCount = 0) := by
  constructor
  · intro b hb hp
    simp [sendDataToWorker, hb, hp]
  · intro b e hb hp
    simp [sendDataToWorker, hb, hp]

/-- Witness for C3 (amended): one close on the direct path, one close on
the fallback path, and zero closes when the hand-off throws. -/
theorem sendDataToWorker_close_spec_witness :
    (sendDataToWorker offscreenEnv okWorker (some capture2x2) 10).closedCount = 1 ∧
    (sendDataToWorker fallbackEnv okWorker (some capture2x2) 10).closedCount = 1 ∧
    (sendDataToWorker noContextEnv throwingWorker (some capture2x2) 10).closedCount
      = 0 :=
  ⟨(sendDataToWorker_close_spec offscreenEnv okWorker capture2x2 10).1 ⟨2, 2⟩ rfl rfl,
    (sendDataToWorker_close_spec fallbackEnv okWorker capture2x2 10).1 ⟨2, 2⟩ rfl rfl,
    (sendDataToWorker_close_spec noContextEnv throwingWorker capture2x2 10).2
      ⟨2, 2⟩ ⟨"DataCloneError"⟩ rfl rfl⟩

/-- C10: on the fallback raster path with a null 2D context, a successful
grab still leads to a detection message whose `image` field is undefined,
and the function still closes the bitmap and returns true. -/
theorem sendDataToWorker_nullContext_posts_undefined_image (worker : Worker)
    (cap : ImageCapture) (b : Bitmap) (threshold : ℚ)
    (hgrab : cap.grabFrame = .ok b)
    (hpost : worker.postMessage ⟨DETECT_FACE, none, threshold⟩ = .ok ()) :
    sendDataToWorker noContextEnv worker (some cap) threshold =
      ⟨.ok true, [⟨DETECT_FACE, none, threshold⟩], 1, 0⟩ := by
  have himg : dispatchImage noContextEnv b = none := rfl
  simp [sendDataToWorker, hgrab, himg, hpost]

/-- Witness for C10: concrete run on the null-context fallback path. -/
theorem sendDataToWorker_nullContext_posts_undefined_image_witness :
    sendDataToWorker noContextEnv okWorker (some capture2x2) 10 =
      ⟨.ok true, [⟨DETECT_FACE, none, 10⟩], 1, 0⟩ :=
  sendDataToWorker_nullContext_posts_undefined_image okWorker capture2x2 ⟨2, 2⟩ 10
    rfl rfl

/-- Witness for C7: a concrete state with one buffered expression and a
configured url, against a fetch answering 200, yields true. -/
theorem sendFaceExpressionsWebhook_post_spec_witness :
    (sendFaceExpressionsWebhook (mkWebhookState (some "https://h") none sampleBuffer)
      none 7 okFetch).result = true := by
  obtain ⟨req, hreqs, hurl, hmethod, hheaders, hemotions, hsub, hiff, hbad, herr⟩ :=
    sendFaceExpressionsWebhook_post_spec
      (mkWebhookState (some "https://h") none sampleBuffer) none 7 okFetch
      "https://h" (by decide) rfl (by decide)
  exact hiff.mpr ⟨⟨200⟩, rfl, rfl⟩
